import Mathlib

/-!
Shallow embedding of the KPop RPD Hub server (`src/server.ts`): an Express +
SQLite event-listing and RSVP application.  The persistent store is modelled
as lists of rows, the handlers as pure functions on that store, and the
nodemailer transport as a function parameterised by the delivery outcome.
-/

namespace RPDHub

/-- Truthiness of an optional string, as JavaScript sees a request field or an
environment variable: `undefined`/`null` (here `none`) and `""` are falsy. -/
def truthy : Option String → Bool
  | none => false
  | some s => s ≠ ""

/-- SMTP configuration drawn from the environment: `SMTP_HOST`, `SMTP_USER`,
`SMTP_FROM`.  `none` models an unset variable. -/
structure SmtpConfig where
  host : Option String
  user : Option String
  smtpFrom : Option String
deriving Repr, DecidableEq

/-- Outcome of one attempted transport delivery (`transporter.sendMail` either
resolves with a message id or rejects with an error message). -/
inductive SmtpOutcome where
  | delivered (messageId : String)
  | failed (msg : String)
deriving Repr, DecidableEq

/-- The value `sendEmail` returns to its caller:
`{success, messageId?}` or `{success:false, error}`. -/
structure EmailResult where
  success : Bool
  messageId : Option String
  error : Option String
deriving Repr, DecidableEq

/-- Result of a `sendEmail` call together with observables the spec talks
about: whether a network call was attempted and which from-address was used. -/
structure SendResult where
  result : EmailResult
  attempted : Bool
  fromUsed : Option String
deriving Repr, DecidableEq

/-- The fixed fallback sender identity in `sendEmail`. -/
def defaultFrom : String := "noreply@rpdhub.com"

/-- JavaScript `s.includes('@')`: whether the string holds an `@`. -/
def includesAt (s : String) : Bool :=
  s.data.any (fun c => c == '@')

/-- The from-address computed in `sendEmail`:
`process.env.SMTP_FROM || (SMTP_USER.includes('@') ? SMTP_USER : 'noreply@rpdhub.com')`. -/
def fromEmail (cfg : SmtpConfig) : String :=
  if truthy cfg.smtpFrom then cfg.smtpFrom.getD ""
  else if includesAt (cfg.user.getD "") then cfg.user.getD ""
  else defaultFrom

/-- `sendEmail(to, subject, text)` from `src/server.ts`: short-circuits when
`SMTP_USER` or `SMTP_HOST` is not configured, otherwise attempts delivery and
converts a rejection into `{success:false, error}` — it never throws. -/
def sendEmail (cfg : SmtpConfig) (o : SmtpOutcome)
    (recip subject text : String) : SendResult :=
  if truthy cfg.user && truthy cfg.host then
    match o with
    | .delivered mid => ⟨⟨true, some mid, none⟩, true, some (fromEmail cfg)⟩
    | .failed m => ⟨⟨false, none, some m⟩, true, some (fromEmail cfg)⟩
  else
    ⟨⟨false, none, some "SMTP not configured"⟩, false, none⟩

/-- A row of the `events` table.  `title`, `location`, `date`, `time` are
`NOT NULL` columns, so they hold a `String`; the nullable columns hold an
`Option String`.  `video_recorded` stores the 0/1 integer the handler binds. -/
structure EventRow where
  id : Nat
  title : String
  description : Option String
  playlist : Option String
  format : Option String
  location : String
  date : String
  time : String
  video_recorded : Nat
  proficiency : Option String
  artist_type : Option String
  creator_email : String
deriving Repr, DecidableEq

/-- A row of the `rsvps` table (the `created_at` timestamp plays no role in
any handler and is omitted). -/
structure RsvpRow where
  id : Nat
  event_id : Nat
  user_identifier : String
  email : String
deriving Repr, DecidableEq

/-- The persistent store: both tables plus the AUTOINCREMENT counters. -/
structure DB where
  events : List EventRow
  nextEventId : Nat
  rsvps : List RsvpRow
  nextRsvpId : Nat
deriving Repr, DecidableEq

/-- The store right after schema creation and both migrations: empty tables,
ids starting at 1. -/
def initDB : DB := ⟨[], 1, [], 1⟩

/-- `SELECT COUNT(*) FROM rsvps WHERE event_id = ?`. -/
def rsvpCount (db : DB) (eventId : Nat) : Nat :=
  (db.rsvps.filter (fun r => r.event_id == eventId)).length

/-- `SELECT * FROM events WHERE id = ?` (`.get`, i.e. the first match). -/
def findEvent (db : DB) (eventId : Nat) : Option EventRow :=
  db.events.find? (fun e => e.id == eventId)

/-- One field of the JSON request body as the handler's destructuring sees
it: absent from the body (JavaScript `undefined`), an explicit JSON `null`,
or a string.  The distinction matters at the INSERT: better-sqlite3 refuses
to bind `undefined` (`stmt.run` throws a TypeError), while `null` binds SQL
NULL. -/
inductive JsonField where
  | absent
  | null
  | str (s : String)
deriving Repr, DecidableEq

/-- JavaScript truthiness of a body field: `undefined`, `null` and `""` are
falsy. -/
def JsonField.truthy : JsonField → Bool
  | .str s => s ≠ ""
  | _ => false

/-- Whether better-sqlite3 can bind the value as a statement parameter:
everything except `undefined`. -/
def JsonField.bindable : JsonField → Bool
  | .absent => false
  | _ => true

/-- Whether the field holds an actual string (a non-NULL value once bound). -/
def JsonField.isStr : JsonField → Bool
  | .str _ => true
  | _ => false

/-- The string carried by a `str` field (callers establish `isStr`). -/
def JsonField.getStr : JsonField → String
  | .str s => s
  | _ => ""

/-- The value a nullable column stores for this field. -/
def JsonField.toCol : JsonField → Option String
  | .str s => some s
  | _ => none

/-- The JSON body of `POST /api/events` as destructured by the handler;
`video_recorded` carries only its truthiness, since the handler binds
`video_recorded ? 1 : 0` (a number, always bindable). -/
structure CreateFields where
  title : JsonField
  description : JsonField
  playlist : JsonField
  format : JsonField
  location : JsonField
  date : JsonField
  time : JsonField
  video_recorded : Bool
  proficiency : JsonField
  artist_type : JsonField
  creator_email : JsonField
deriving Repr, DecidableEq

/-- Response of `POST /api/events`: 400 `"Creator email is required"`,
500 `"Database error"` (the catch branch), or 200 `{id}`. -/
inductive CreateResp where
  | validationError
  | dbError
  | ok (id : Nat)
deriving Repr, DecidableEq

/-- What a `POST /api/events` request leaves behind: the store, the HTTP
response, and the notification attempts made (recipient with send result). -/
structure CreateResult where
  db : DB
  resp : CreateResp
  emails : List (String × SendResult)
deriving Repr, DecidableEq

/-- Whether `stmt.run` can bind all ten body-derived parameters:
better-sqlite3 throws a TypeError as soon as any of them is `undefined`
(only numbers, strings, bigints, buffers and null bind). -/
def bindableAll (f : CreateFields) : Bool :=
  f.title.bindable && f.description.bindable && f.playlist.bindable &&
  f.format.bindable && f.location.bindable && f.date.bindable &&
  f.time.bindable && f.proficiency.bindable && f.artist_type.bindable &&
  f.creator_email.bindable

/-- The INSERT binds `title`, `location`, `date`, `time` into `NOT NULL`
columns: beyond being bindable they must be actual strings. -/
def requiredPresent (f : CreateFields) : Bool :=
  f.title.isStr && f.location.isStr && f.date.isStr && f.time.isStr

/-- The `events` row the INSERT of `POST /api/events` produces. -/
def mkEventRow (db : DB) (f : CreateFields) : EventRow :=
  { id := db.nextEventId
    title := f.title.getStr
    description := f.description.toCol
    playlist := f.playlist.toCol
    format := f.format.toCol
    location := f.location.getStr
    date := f.date.getStr
    time := f.time.getStr
    video_recorded := if f.video_recorded then 1 else 0
    proficiency := f.proficiency.toCol
    artist_type := f.artist_type.toCol
    creator_email := f.creator_email.getStr }

/-- Handler of `POST /api/events`: reject a falsy `creator_email` with 400;
run the INSERT — `stmt.run` throws on an `undefined` bind parameter and the
store rejects NULL in a `NOT NULL` column, and either lands in the catch
branch: 500, nothing stored; on success await one confirmation email, whose
result is discarded, and respond `{id: lastInsertRowid}`. -/
def createEvent (db : DB) (f : CreateFields) (cfg : SmtpConfig)
    (o : SmtpOutcome) : CreateResult :=
  if f.creator_email.truthy = false then
    ⟨db, .validationError, []⟩
  else if bindableAll f && requiredPresent f then
    let ce := f.creator_email.getStr
    let row := mkEventRow db f
    let db2 : DB := { db with events := db.events ++ [row],
                              nextEventId := db.nextEventId + 1 }
    let r := sendEmail cfg o ce ("Event Created: " ++ row.title)
      ("Hi! Your RPD event has been successfully posted.")
    ⟨db2, .ok row.id, [(ce, r)]⟩
  else
    ⟨db, .dbError, []⟩

/-- Response of `POST /api/events/:id/rsvp`: 400 `"Email is required for
RSVP"`, 400 `"This email has already RSVP'd"`, or 200 `{rsvp_count}`. -/
inductive RsvpResp where
  | validationError
  | duplicateError
  | ok (rsvp_count : Nat)
deriving Repr, DecidableEq

/-- What a `POST /api/events/:id/rsvp` request leaves behind. -/
structure RsvpResult where
  db : DB
  resp : RsvpResp
  emails : List (String × SendResult)
deriving Repr, DecidableEq

/-- The `rsvps` row the INSERT of `POST /api/events/:id/rsvp` produces:
`user_identifier` is `req.ip || "anon"`. -/
def mkRsvpRow (db : DB) (eventId : Nat) (email : String) (ip : Option String) :
    RsvpRow :=
  ⟨db.nextRsvpId, eventId, if truthy ip then ip.getD "" else "anon", email⟩

/-- The store after the RSVP INSERT. -/
def insertRsvp (db : DB) (eventId : Nat) (email : String) (ip : Option String) :
    DB :=
  { db with rsvps := db.rsvps ++ [mkRsvpRow db eventId email ip],
            nextRsvpId := db.nextRsvpId + 1 }

/-- Handler of `POST /api/events/:id/rsvp`: reject a falsy email; reject when
a row for `(event_id, email)` already exists; otherwise insert the RSVP,
look up the parent event, send the two best-effort notifications only when it
exists, and respond with the recomputed count. -/
def rsvpCreate (db : DB) (eventId : Nat) (email : Option String)
    (ip : Option String) (cfg : SmtpConfig) (o1 o2 : SmtpOutcome) : RsvpResult :=
  if truthy email = false then
    ⟨db, .validationError, []⟩
  else
    let em := email.getD ""
    if (db.rsvps.find? (fun r => r.event_id == eventId && r.email == em)).isSome then
      ⟨db, .duplicateError, []⟩
    else
      let db2 := insertRsvp db eventId em ip
      match findEvent db2 eventId with
      | some ev =>
        let r1 := sendEmail cfg o1 em ("RSVP Confirmation: " ++ ev.title)
          ("You have successfully RSVPd.")
        let r2 := sendEmail cfg o2 ev.creator_email ("New RSVP: " ++ ev.title)
          ("Someone just RSVPd: " ++ em)
        ⟨db2, .ok (rsvpCount db2 eventId), [(em, r1), (ev.creator_email, r2)]⟩
      | none =>
        ⟨db2, .ok (rsvpCount db2 eventId), []⟩

/-- ASCII lower-casing, the case folding SQLite applies in `LIKE`. -/
def lowerAscii (c : Char) : Char :=
  if 'A' ≤ c && c ≤ 'Z' then Char.ofNat (c.toNat + 32) else c

/-- SQLite `LIKE` pattern matching over character lists: `%` matches any
sequence (i.e. the rest of the pattern must match some suffix), `_` matches
any single character, other characters compare ASCII-case-insensitively. -/
def likeMatch : List Char → List Char → Bool
  | [], s => s.isEmpty
  | '%' :: ps, s => s.tails.any (fun t => likeMatch ps t)
  | '_' :: ps, s =>
    match s with
    | [] => false
    | _ :: s2 => likeMatch ps s2
  | p :: ps, s =>
    match s with
    | [] => false
    | c :: s2 => (lowerAscii p == lowerAscii c) && likeMatch ps s2

/-- The condition `col LIKE '%q%'` built by the list handler for a filter
value `q` against a column value `hay`. -/
def likeContains (q hay : String) : Bool :=
  likeMatch ('%' :: (q.data ++ ['%'])) hay.data

/-- `col LIKE '%q%'` on a nullable column: a SQL NULL never matches. -/
def optLike (col : Option String) (q : String) : Bool :=
  match col with
  | none => false
  | some s => likeContains q s

/-- The query string of `GET /api/events`: the four optional filters. -/
structure Filters where
  q : Option String
  location : Option String
  proficiency : Option String
  artist_type : Option String
deriving Repr, DecidableEq

/-- The WHERE clause `GET /api/events` assembles: one conjunct per truthy
query parameter, exactly as the handler appends `AND` clauses. -/
def wherePred (f : Filters) (e : EventRow) : Bool :=
  (if truthy f.q then
    likeContains (f.q.getD "") e.title
      || optLike e.description (f.q.getD "")
      || optLike e.playlist (f.q.getD "")
   else true)
  && (if truthy f.location then likeContains (f.location.getD "") e.location
      else true)
  && (if truthy f.proficiency then e.proficiency == some (f.proficiency.getD "")
      else true)
  && (if truthy f.artist_type then e.artist_type == some (f.artist_type.getD "")
      else true)

/-- The key order of `ORDER BY date ASC, time ASC`: lexicographic string
comparison on `date`, ties broken by `time`. -/
def keyLe (a b : EventRow) : Prop :=
  a.date < b.date ∨ (a.date = b.date ∧ a.time ≤ b.time)

instance : DecidableRel keyLe := fun a b => by
  unfold keyLe; infer_instance

instance : IsTrans EventRow keyLe := by
  constructor
  intro a b c hab hbc
  rcases hab with h1 | ⟨h1, h1t⟩ <;> rcases hbc with h2 | ⟨h2, h2t⟩
  · exact Or.inl (lt_trans h1 h2)
  · exact Or.inl (h2 ▸ h1)
  · exact Or.inl (h1 ▸ h2)
  · exact Or.inr ⟨h1.trans h2, le_trans h1t h2t⟩

instance : IsTotal EventRow keyLe := by
  constructor
  intro a b
  rcases lt_trichotomy a.date b.date with h | h | h
  · exact Or.inl (Or.inl h)
  · rcases le_total a.time b.time with ht | ht
    · exact Or.inl (Or.inr ⟨h, ht⟩)
    · exact Or.inr (Or.inr ⟨h.symm, ht⟩)
  · exact Or.inr (Or.inl h)

/-- Handler of `GET /api/events`: the filtered rows in `ORDER BY date ASC,
time ASC` order. -/
def listEvents (db : DB) (f : Filters) : List EventRow :=
  List.insertionSort keyLe (db.events.filter (wherePred f))

/-- HTTP method, as far as the registered routes distinguish them. -/
inductive Method where
  | get
  | post
deriving Repr, DecidableEq

/-- Where a request lands among the handlers registered in `startServer`. -/
inductive RouteTarget where
  | debug
  | testEmail
  | listEventsR
  | createEventR
  | rsvpR (id : String)
  | fallback
deriving Repr, DecidableEq

/-- The route table of `startServer`, applied to a method and the path split
at slashes.  Requests matching no API route fall through to the static /
Vite SPA middleware, which serves `index.html`. -/
def route (m : Method) (path : List String) : RouteTarget :=
  match m, path with
  | .get, ["api", "debug"] => .debug
  | .post, ["api", "test-email"] => .testEmail
  | .get, ["api", "events"] => .listEventsR
  | .post, ["api", "events"] => .createEventR
  | .post, ["api", "events", id, "rsvp"] => .rsvpR id
  | _, _ => .fallback

/-- A store as the migration step sees it: the column lists of both tables
and the rows as column-name/value association lists. -/
structure MigStore where
  eventCols : List String
  rsvpCols : List String
  eventRows : List (List (String × String))
  rsvpRows : List (List (String × String))
deriving Repr, DecidableEq

/-- `ALTER TABLE _ ADD COLUMN name TEXT DEFAULT dflt`: the column is appended
to the schema and every existing row gains the default value. -/
def addColumn (cols : List String) (rows : List (List (String × String)))
    (name dflt : String) : List String × List (List (String × String)) :=
  (cols ++ [name], rows.map (fun r => r ++ [(name, dflt)]))

/-- Result of one run of the migration step: the store afterwards and which
of the two ALTERs actually ran. -/
structure MigResult where
  store : MigStore
  alteredEvents : Bool
  alteredRsvps : Bool
deriving Repr, DecidableEq

/-- The two startup migration blocks: probe for `events.creator_email` and
`rsvps.email` (the probe throws exactly when the column is absent) and add
the missing column with default `'unknown@example.com'`. -/
def migrate (s : MigStore) : MigResult :=
  let p1 :=
    if "creator_email" ∈ s.eventCols then (s, false)
    else
      let a := addColumn s.eventCols s.eventRows "creator_email" "unknown@example.com"
      ({ s with eventCols := a.1, eventRows := a.2 }, true)
  let p2 :=
    if "email" ∈ p1.1.rsvpCols then (p1.1, false)
    else
      let a := addColumn p1.1.rsvpCols p1.1.rsvpRows "email" "unknown@example.com"
      ({ p1.1 with rsvpCols := a.1, rsvpRows := a.2 }, true)
  ⟨p2.1, p1.2, p2.2⟩

/-- The stores reachable from the freshly migrated empty store through the
two mutating handlers. -/
inductive Reachable : DB → Prop where
  | init : Reachable initDB
  | create (db : DB) (f : CreateFields) (cfg : SmtpConfig) (o : SmtpOutcome) :
      Reachable db → Reachable (createEvent db f cfg o).db
  | rsvp (db : DB) (eventId : Nat) (email ip : Option String)
      (cfg : SmtpConfig) (o1 o2 : SmtpOutcome) :
      Reachable db → Reachable (rsvpCreate db eventId email ip cfg o1 o2).db


theorem truthy_iff (x : Option String) : truthy x = true ↔ x.getD "" ≠ "" := by
  cases x <;> simp [truthy]

theorem JsonField.getStr_ne_of_truthy {j : JsonField} (h : j.truthy = true) :
    j.getStr ≠ "" := by
  cases j with
  | absent => simp [JsonField.truthy] at h
  | null => simp [JsonField.truthy] at h
  | str s => simpa [JsonField.truthy, JsonField.getStr] using h

theorem createEvent_not_truthy {db : DB} {f : CreateFields} {cfg : SmtpConfig}
    {o : SmtpOutcome} (h : f.creator_email.truthy = false) :
    createEvent db f cfg o = ⟨db, .validationError, []⟩ := by
  simp [createEvent, h]

theorem createEvent_missing {db : DB} {f : CreateFields} {cfg : SmtpConfig}
    {o : SmtpOutcome} (h1 : f.creator_email.truthy = true)
    (h2 : (bindableAll f && requiredPresent f) = false) :
    createEvent db f cfg o = ⟨db, .dbError, []⟩ := by
  simp [createEvent, h1, h2]

theorem createEvent_ok {db : DB} {f : CreateFields} {cfg : SmtpConfig}
    {o : SmtpOutcome} (h1 : f.creator_email.truthy = true)
    (h2 : (bindableAll f && requiredPresent f) = true) :
    createEvent db f cfg o =
      ⟨{ db with events := db.events ++ [mkEventRow db f],
                 nextEventId := db.nextEventId + 1 },
       .ok db.nextEventId,
       [(f.creator_email.getStr,
         sendEmail cfg o f.creator_email.getStr
           ("Event Created: " ++ (mkEventRow db f).title)
           ("Hi! Your RPD event has been successfully posted."))]⟩ := by
  simp [createEvent, h1, h2, mkEventRow]

theorem createEvent_db_rsvps (db : DB) (f : CreateFields) (cfg : SmtpConfig)
    (o : SmtpOutcome) : (createEvent db f cfg o).db.rsvps = db.rsvps := by
  by_cases h1 : f.creator_email.truthy = true
  · by_cases h2 : (bindableAll f && requiredPresent f) = true
    · rw [createEvent_ok h1 h2]
    · rw [createEvent_missing h1 (by simpa using h2)]
  · rw [createEvent_not_truthy (by simpa using h1)]

theorem rsvpCreate_not_truthy {db : DB} {eventId : Nat} {email ip : Option String}
    {cfg : SmtpConfig} {o1 o2 : SmtpOutcome} (h : truthy email = false) :
    rsvpCreate db eventId email ip cfg o1 o2 = ⟨db, .validationError, []⟩ := by
  simp [rsvpCreate, h]

theorem rsvpCreate_dup {db : DB} {eventId : Nat} {email ip : Option String}
    {cfg : SmtpConfig} {o1 o2 : SmtpOutcome} (h1 : truthy email = true)
    (h2 : (db.rsvps.find?
      (fun r => r.event_id == eventId && r.email == email.getD "")).isSome) :
    rsvpCreate db eventId email ip cfg o1 o2 = ⟨db, .duplicateError, []⟩ := by
  simp [rsvpCreate, h1, h2]

theorem rsvpCreate_insert {db : DB} {eventId : Nat} {email ip : Option String}
    {cfg : SmtpConfig} {o1 o2 : SmtpOutcome} (h1 : truthy email = true)
    (h2 : (db.rsvps.find?
      (fun r => r.event_id == eventId && r.email == email.getD "")).isSome = false) :
    (rsvpCreate db eventId email ip cfg o1 o2).db =
        insertRsvp db eventId (email.getD "") ip ∧
    (rsvpCreate db eventId email ip cfg o1 o2).resp =
        .ok (rsvpCount (insertRsvp db eventId (email.getD "") ip) eventId) ∧
    (findEvent db eventId = none →
        (rsvpCreate db eventId email ip cfg o1 o2).emails = []) := by
  have hfe : findEvent (insertRsvp db eventId (email.getD "") ip) eventId =
      findEvent db eventId := rfl
  simp only [rsvpCreate, h1, h2, Bool.false_eq_true, if_false, Bool.true_eq_false]
  cases hev : findEvent (insertRsvp db eventId (email.getD "") ip) eventId with
  | none => simp [hev]
  | some ev =>
    refine ⟨rfl, rfl, ?_⟩
    intro hnone
    rw [hfe, hnone] at hev
    exact absurd hev (by simp)

theorem rsvpCreate_db_events (db : DB) (eventId : Nat) (email ip : Option String)
    (cfg : SmtpConfig) (o1 o2 : SmtpOutcome) :
    (rsvpCreate db eventId email ip cfg o1 o2).db.events = db.events := by
  by_cases h1 : truthy email = true
  · by_cases h2 : (db.rsvps.find?
        (fun r => r.event_id == eventId && r.email == email.getD "")).isSome = true
    · rw [rsvpCreate_dup h1 h2]
    · rw [(rsvpCreate_insert h1 (by simpa using h2)).1]
      rfl
  · rw [rsvpCreate_not_truthy (by simpa using h1)]

/-- The store invariant maintained by the two mutating handlers: every stored
creator email and RSVP email is non-empty (both pass a truthiness check before
insertion), and no two RSVP rows share the `(event_id, email)` pair (the
pre-insert existence check). -/
def storeInv (db : DB) : Prop :=
  (∀ e ∈ db.events, e.creator_email ≠ "") ∧
  (∀ r ∈ db.rsvps, r.email ≠ "") ∧
  db.rsvps.Pairwise (fun r s => ¬(r.event_id = s.event_id ∧ r.email = s.email))

theorem reachable_storeInv {db : DB} (h : Reachable db) : storeInv db := by
  induction h with
  | init => exact ⟨by simp [initDB], by simp [initDB], by simp [initDB]⟩
  | create db f cfg o _ ih =>
    obtain ⟨he, hr, hp⟩ := ih
    refine ⟨?_, by rwa [createEvent_db_rsvps], by rwa [createEvent_db_rsvps]⟩
    by_cases h1 : f.creator_email.truthy = true
    · by_cases h2 : (bindableAll f && requiredPresent f) = true
      · rw [createEvent_ok h1 h2]
        intro e hmem
        simp only [List.mem_append, List.mem_singleton] at hmem
        rcases hmem with hmem | rfl
        · exact he e hmem
        · simpa [mkEventRow] using JsonField.getStr_ne_of_truthy h1
      · rw [createEvent_missing h1 (by simpa using h2)]; exact he
    · rw [createEvent_not_truthy (by simpa using h1)]; exact he
  | rsvp db eventId email ip cfg o1 o2 _ ih =>
    obtain ⟨he, hr, hp⟩ := ih
    refine ⟨by rwa [rsvpCreate_db_events], ?_⟩
    by_cases h1 : truthy email = true
    · by_cases h2 : (db.rsvps.find?
          (fun r => r.event_id == eventId && r.email == email.getD "")).isSome = true
      · rw [rsvpCreate_dup h1 h2]; exact ⟨hr, hp⟩
      · rw [(rsvpCreate_insert h1 (by simpa using h2)).1]
        have hnotdup : ∀ r ∈ db.rsvps,
            ¬(r.event_id = eventId ∧ r.email = email.getD "") := by
          intro r hmem hcontra
          have : (db.rsvps.find?
              (fun r => r.event_id == eventId && r.email == email.getD "")).isSome := by
            rw [List.find?_isSome]
            exact ⟨r, hmem, by simp [hcontra.1, hcontra.2]⟩
          exact h2 this
        constructor
        · intro r hmem
          simp only [insertRsvp, List.mem_append, List.mem_singleton] at hmem
          rcases hmem with hmem | rfl
          · exact hr r hmem
          · simpa [mkRsvpRow] using (truthy_iff email).mp h1
        · simp only [insertRsvp]
          rw [List.pairwise_append]
          refine ⟨hp, by simp, ?_⟩
          intro r hmem s hs
          simp only [List.mem_singleton] at hs
          subst hs
          intro hcontra
          exact hnotdup r hmem ⟨hcontra.1, by simpa [mkRsvpRow] using hcontra.2⟩
    · rw [rsvpCreate_not_truthy (by simpa using h1)]; exact ⟨hr, hp⟩

/-- A valid event-creation request body used as a concrete fixture: the
optional fields are explicit JSON nulls. -/
def wFields : CreateFields :=
  ⟨.str "Party", .null, .null, .null, .str "Seoul", .str "2024-01-01",
   .str "19:00", false, .null, .null, .str "c@x.com"⟩

/-- An unconfigured SMTP environment used as a concrete fixture. -/
def wCfg : SmtpConfig := ⟨none, none, none⟩

/-- The store after creating one event from `wFields`. -/
def wDb1 : DB := (createEvent initDB wFields wCfg (.failed "x")).db

/-- The store after additionally RSVPing `a@x.com` to event 1. -/
def wDb : DB :=
  (rsvpCreate wDb1 1 (some "a@x.com") none wCfg (.failed "x") (.failed "x")).db

/-- C1: in any reachable store, once an RSVP row for `(eventId, email)` exists,
a second RSVP create call for the same pair answers the 400 DuplicateError
("This email has already RSVP'd"), leaves the store — hence the RSVP count —
unchanged, and at most one RSVP row exists per `(event_id, email)` pair. -/
theorem c1_rsvp_duplicate_rejected (db : DB) (eventId : Nat) (email : String)
    (ip : Option String) (cfg : SmtpConfig) (o1 o2 : SmtpOutcome)
    (hreach : Reachable db)
    (hex : ∃ r ∈ db.rsvps, r.event_id = eventId ∧ r.email = email) :
    (rsvpCreate db eventId (some email) ip cfg o1 o2).resp = .duplicateError ∧
    (rsvpCreate db eventId (some email) ip cfg o1 o2).db = db ∧
    rsvpCount (rsvpCreate db eventId (some email) ip cfg o1 o2).db eventId
      = rsvpCount db eventId ∧
    db.rsvps.Pairwise (fun r s => ¬(r.event_id = s.event_id ∧ r.email = s.email)) := by
  obtain ⟨_, hremail, hpair⟩ := reachable_storeInv hreach
  obtain ⟨r, hmem, hrid, hrem⟩ := hex
  have hemail : email ≠ "" := hrem ▸ hremail r hmem
  have h1 : truthy (some email) = true := by simp [truthy, hemail]
  have h2 : (db.rsvps.find?
      (fun r => r.event_id == eventId && r.email == (some email).getD "")).isSome := by
    rw [List.find?_isSome]
    exact ⟨r, hmem, by simp [hrid, hrem]⟩
  rw [rsvpCreate_dup h1 h2]
  exact ⟨rfl, rfl, rfl, hpair⟩

/-- Witness for C1 at a concrete reachable store with one RSVP row. -/
theorem c1_rsvp_duplicate_rejected_witness :
    (∃ r ∈ wDb.rsvps, r.event_id = 1 ∧ r.email = "a@x.com") ∧
    (rsvpCreate wDb 1 (some "a@x.com") none wCfg (.failed "x") (.failed "x")).resp
      = .duplicateError ∧
    (rsvpCreate wDb 1 (some "a@x.com") none wCfg (.failed "x") (.failed "x")).db
      = wDb ∧
    rsvpCount (rsvpCreate wDb 1 (some "a@x.com") none wCfg
      (.failed "x") (.failed "x")).db 1 = rsvpCount wDb 1 ∧
    wDb.rsvps.Pairwise (fun r s => ¬(r.event_id = s.event_id ∧ r.email = s.email)) := by
  have hreach : Reachable wDb :=
    Reachable.rsvp wDb1 1 (some "a@x.com") none wCfg (.failed "x") (.failed "x")
      (Reachable.create initDB wFields wCfg (.failed "x") Reachable.init)
  exact ⟨by decide,
    c1_rsvp_duplicate_rejected wDb 1 "a@x.com" none wCfg (.failed "x") (.failed "x")
      hreach (by decide)⟩

/-- An event-creation request with non-empty `creator_email` but NULL `title`:
the INSERT violates `title TEXT NOT NULL`. -/
def c2Fields : CreateFields :=
  ⟨.null, .str "", .str "", .str "", .str "Seoul", .str "2024-01-01",
   .str "19:00", false, .str "", .str "", .str "a@b.c"⟩

/-- Counterexample to C2 as stated: this request has a non-empty
`creator_email`, yet the create fails with the 500 "Database error" response
(NOT NULL violation on `title`) and inserts no row. -/
theorem c2_counterexample :
    c2Fields.creator_email.truthy = true ∧
    (createEvent initDB c2Fields wCfg (.failed "x")).resp = .dbError ∧
    (createEvent initDB c2Fields wCfg (.failed "x")).db = initDB := by decide

/-- An event-creation request with an absent `creator_email` key. -/
def c2BadFields : CreateFields :=
  ⟨.str "Party", .null, .null, .null, .str "Seoul", .str "2024-01-01",
   .str "19:00", false, .null, .null, .absent⟩

/-- The minimal body `{title, location, date, time, creator_email}`: the
optional keys are absent, so destructuring yields `undefined` and `stmt.run`
refuses to bind them. -/
def c2AbsFields : CreateFields :=
  ⟨.str "Party", .absent, .absent, .absent, .str "Seoul", .str "2024-01-01",
   .str "19:00", false, .absent, .absent, .str "a@b.c"⟩

/-- C2 (amended): a request whose `creator_email` is empty, absent or null
fails with the 400 ValidationError and inserts no row; a request with a
non-empty `creator_email`, no absent field among the ten bound columns, and
actual strings for `title`, `location`, `date` and `time` inserts exactly one
row and returns the generated id; any other request — an absent field, which
better-sqlite3 refuses to bind, or a NULL required column — fails with the
500 database error and inserts no row. -/
theorem c2_create_validates_creator_email (db : DB) (f : CreateFields)
    (cfg : SmtpConfig) (o : SmtpOutcome) :
    (f.creator_email.truthy = false →
      createEvent db f cfg o = ⟨db, .validationError, []⟩) ∧
    (f.creator_email.truthy = true →
      (bindableAll f && requiredPresent f) = true →
      (createEvent db f cfg o).resp = .ok db.nextEventId ∧
      (createEvent db f cfg o).db.events = db.events ++ [mkEventRow db f]) ∧
    (f.creator_email.truthy = true →
      (bindableAll f && requiredPresent f) = false →
      createEvent db f cfg o = ⟨db, .dbError, []⟩) := by
  refine ⟨createEvent_not_truthy, ?_, createEvent_missing⟩
  intro h1 h2
  rw [createEvent_ok h1 h2]
  exact ⟨rfl, rfl⟩

/-- Witness for C2 (amended) at concrete requests, covering all three
branches: absent creator_email, a fully bindable valid body, and the minimal
body whose absent optional keys make the INSERT throw. -/
theorem c2_create_validates_creator_email_witness :
    (c2BadFields.creator_email.truthy = false ∧
      createEvent initDB c2BadFields wCfg (.failed "x")
        = ⟨initDB, .validationError, []⟩) ∧
    (wFields.creator_email.truthy = true ∧
      (bindableAll wFields && requiredPresent wFields) = true ∧
      (createEvent initDB wFields wCfg (.failed "x")).resp = .ok initDB.nextEventId ∧
      (createEvent initDB wFields wCfg (.failed "x")).db.events
        = initDB.events ++ [mkEventRow initDB wFields]) ∧
    (c2AbsFields.creator_email.truthy = true ∧
      (bindableAll c2AbsFields && requiredPresent c2AbsFields) = false ∧
      createEvent initDB c2AbsFields wCfg (.failed "x")
        = ⟨initDB, .dbError, []⟩) := by
  refine ⟨⟨by decide, ?_⟩, ⟨by decide, by decide, ?_, ?_⟩, ⟨by decide, by decide, ?_⟩⟩
  · exact (c2_create_validates_creator_email initDB c2BadFields wCfg
      (.failed "x")).1 (by decide)
  · exact ((c2_create_validates_creator_email initDB wFields wCfg
      (.failed "x")).2.1 (by decide) (by decide)).1
  · exact ((c2_create_validates_creator_email initDB wFields wCfg
      (.failed "x")).2.1 (by decide) (by decide)).2
  · exact (c2_create_validates_creator_email initDB c2AbsFields wCfg
      (.failed "x")).2.2 (by decide) (by decide)

/-- An event-creation request whose `title` is the empty string. -/
def c3Fields : CreateFields :=
  ⟨.str "", .null, .null, .null, .str "Seoul", .str "2024-01-01",
   .str "19:00", false, .null, .null, .str "c@x.com"⟩

/-- The reachable store obtained by creating an event with an empty title. -/
def c3DB : DB := (createEvent initDB c3Fields wCfg (.failed "x")).db

/-- Counterexample to C3 as stated: event creation succeeds with an empty
`title` (only NULL is rejected, by the NOT NULL constraint; the handler checks
no field but `creator_email`), so a reachable store holds an event row whose
title is empty. -/
theorem c3_counterexample :
    Reachable c3DB ∧
    (createEvent initDB c3Fields wCfg (.failed "x")).resp = .ok 1 ∧
    c3DB.events.map (fun e => e.title) = [""] := by
  exact ⟨Reachable.create initDB c3Fields wCfg (.failed "x") Reachable.init,
    by decide, by decide⟩

/-- C3 (amended): in every reachable store every event row has a non-empty
`creator_email` (creation never succeeds with an empty one); `title`,
`location`, `date` and `time` are always present (non-NULL) but may be empty
strings. -/
theorem c3_creator_email_nonempty {db : DB} (h : Reachable db) :
    ∀ e ∈ db.events, e.creator_email ≠ "" :=
  (reachable_storeInv h).1

/-- Witness for C3 (amended) at a concrete reachable store. -/
theorem c3_creator_email_nonempty_witness :
    (mkEventRow initDB wFields).creator_email ≠ "" :=
  c3_creator_email_nonempty
    (Reachable.create initDB wFields wCfg (.failed "x") Reachable.init)
    (mkEventRow initDB wFields) (by decide)

/-- C4: the HTTP response and the resulting store of both `POST /api/events`
and `POST /api/events/:id/rsvp` are the same for every notification outcome
(delivery, transport failure, or the unconfigured-relay short-circuit):
`sendEmail` never throws and its result is never consulted for the response,
so a create still answers `{id}` and an RSVP still answers `{rsvp_count}`. -/
theorem c4_notification_failures_nonfatal (db : DB) (f : CreateFields)
    (eventId : Nat) (email ip : Option String) (cfg : SmtpConfig)
    (o o' o1 o2 o1' o2' : SmtpOutcome) :
    (createEvent db f cfg o).resp = (createEvent db f cfg o').resp ∧
    (createEvent db f cfg o).db = (createEvent db f cfg o').db ∧
    (rsvpCreate db eventId email ip cfg o1 o2).resp =
      (rsvpCreate db eventId email ip cfg o1' o2').resp ∧
    (rsvpCreate db eventId email ip cfg o1 o2).db =
      (rsvpCreate db eventId email ip cfg o1' o2').db := by
  have hc : ∀ oa : SmtpOutcome,
      (createEvent db f cfg oa).resp = (createEvent db f cfg o).resp ∧
      (createEvent db f cfg oa).db = (createEvent db f cfg o).db := by
    intro oa
    by_cases h1 : f.creator_email.truthy = true
    · by_cases h2 : (bindableAll f && requiredPresent f) = true
      · rw [createEvent_ok h1 h2, createEvent_ok h1 h2]; exact ⟨rfl, rfl⟩
      · rw [createEvent_missing h1 (by simpa using h2),
            createEvent_missing h1 (by simpa using h2)]
        exact ⟨rfl, rfl⟩
    · rw [createEvent_not_truthy (by simpa using h1),
          createEvent_not_truthy (by simpa using h1)]
      exact ⟨rfl, rfl⟩
  have hrv : ∀ oa ob : SmtpOutcome,
      (rsvpCreate db eventId email ip cfg oa ob).resp =
        (rsvpCreate db eventId email ip cfg o1 o2).resp ∧
      (rsvpCreate db eventId email ip cfg oa ob).db =
        (rsvpCreate db eventId email ip cfg o1 o2).db := by
    intro oa ob
    by_cases h1 : truthy email = true
    · by_cases h2 : (db.rsvps.find?
          (fun r => r.event_id == eventId && r.email == email.getD "")).isSome = true
      · rw [rsvpCreate_dup h1 h2, rsvpCreate_dup h1 h2]; exact ⟨rfl, rfl⟩
      · obtain ⟨da, ra, _⟩ :=
          @rsvpCreate_insert db eventId email ip cfg oa ob h1 (by simpa using h2)
        obtain ⟨dc, rc, _⟩ :=
          @rsvpCreate_insert db eventId email ip cfg o1 o2 h1 (by simpa using h2)
        exact ⟨ra.trans rc.symm, da.trans dc.symm⟩
    · rw [rsvpCreate_not_truthy (by simpa using h1),
          rsvpCreate_not_truthy (by simpa using h1)]
      exact ⟨rfl, rfl⟩
  exact ⟨(hc o').1.symm, (hc o').2.symm, (hrv o1' o2').1.symm, (hrv o1' o2').2.symm⟩

/-- C5: the claim fails on the code: `GET /api/events/:id/rsvps` matches none
of the registered API routes, so the request falls through to the static /
Vite SPA fallback, which serves `index.html` — not the array of
`{email, created_at}` records the spec and the client expect.  (The adjacent
routes do exist: listing and RSVP-posting are handled.) -/
theorem c5_rsvps_route_missing :
    route .get ["api", "events", "1", "rsvps"] = .fallback ∧
    route .get ["api", "events"] = .listEventsR ∧
    route .post ["api", "events", "1", "rsvp"] = .rsvpR "1" := by decide

/-- The filter semantics as the spec states them, one conjunct per supplied
filter: `q` matches ASCII-case-insensitively with `%`/`_` wildcards (SQLite
`LIKE '%q%'`), OR-ed across title, description and playlist; `location`
likewise; `proficiency` and `artist_type` are exact matches; an omitted
filter constrains nothing. -/
def SpecMatches (f : Filters) (e : EventRow) : Prop :=
  (truthy f.q = true →
    (likeContains (f.q.getD "") e.title = true ∨
     optLike e.description (f.q.getD "") = true ∨
     optLike e.playlist (f.q.getD "") = true)) ∧
  (truthy f.location = true →
    likeContains (f.location.getD "") e.location = true) ∧
  (truthy f.proficiency = true →
    e.proficiency = some (f.proficiency.getD "")) ∧
  (truthy f.artist_type = true →
    e.artist_type = some (f.artist_type.getD ""))

theorem wherePred_iff (f : Filters) (e : EventRow) :
    wherePred f e = true ↔ SpecMatches f e := by
  unfold wherePred SpecMatches
  by_cases hq : truthy f.q = true <;>
  by_cases hl : truthy f.location = true <;>
  by_cases hp : truthy f.proficiency = true <;>
  by_cases ha : truthy f.artist_type = true <;>
  simp [hq, hl, hp, ha, or_assoc, and_assoc]

/-- C6 (amended): the event list returns exactly the stored events satisfying
the conjunction of all supplied filters, where `q` and `location` use SQLite
`LIKE '%x%'` semantics — ASCII-case-insensitive, with `%`/`_` in the filter
value acting as wildcards (plain case-insensitive substring match for
wildcard-free values) — `q` OR-ed across title/description/playlist, and
`proficiency`/`artist_type` exact; an omitted filter constrains nothing. -/
theorem c6_filters_conjunctive (db : DB) (f : Filters) (e : EventRow) :
    e ∈ listEvents db f ↔ e ∈ db.events ∧ SpecMatches f e := by
  unfold listEvents
  rw [List.mem_insertionSort, List.mem_filter, wherePred_iff]

/-- An event row whose title is matched by the wildcard pattern `a%z`. -/
def c6Event : EventRow :=
  ⟨1, "abcz", none, none, none, "Seoul", "2024-01-01", "19:00", 0,
   none, none, "c@x.com"⟩

/-- A store holding just `c6Event`. -/
def c6DB : DB := ⟨[c6Event], 2, [], 1⟩

/-- The filter combination `q = "a%z"` and nothing else. -/
def c6F : Filters := ⟨some "a%z", none, none, none⟩

/-- ASCII-case-insensitive plain substring test: the relation C6 claims the
`q` filter uses. -/
def ciSubstr (pat hay : String) : Bool :=
  (hay.data.map lowerAscii).tails.any
    (fun t => (pat.data.map lowerAscii).isPrefixOf t)

/-- Counterexample to C6 as stated: with `q = "a%z"` the listing returns the
event titled `"abcz"` although `"a%z"` is not a case-insensitive substring of
`"abcz"` (and description and playlist are NULL): the `%` in the filter value
acts as a LIKE wildcard, not as a literal character. -/
theorem c6_counterexample :
    listEvents c6DB c6F = [c6Event] ∧
    ciSubstr "a%z" c6Event.title = false ∧
    c6Event.description = none ∧ c6Event.playlist = none := by decide

/-- C7: for every store state and every filter combination the event list is
sorted by `date` ascending then `time` ascending (both lexical string
comparisons, `keyLe`), and is a permutation of the rows passing the WHERE
clause — so, in particular, events dated "2024-01-01" and "2024-02-01" come
out in that order whatever the insertion order. -/
theorem c7_list_sorted (db : DB) (f : Filters) :
    (listEvents db f).Sorted keyLe ∧
    (listEvents db f).Perm (db.events.filter (wherePred f)) :=
  ⟨List.sorted_insertionSort keyLe _, List.perm_insertionSort keyLe _⟩

/-- C8: with `SMTP_HOST` or `SMTP_USER` unconfigured, `sendEmail` returns
`{success:false, error:"SMTP not configured"}` without attempting a network
call; otherwise it attempts delivery with the from-address preferring
`SMTP_FROM`, then `SMTP_USER` when it contains `@`, else the fixed default
sender identity. -/
theorem c8_sendEmail_config (cfg : SmtpConfig) (o : SmtpOutcome)
    (recip subject text : String) :
    (¬(truthy cfg.user = true ∧ truthy cfg.host = true) →
      sendEmail cfg o recip subject text =
        ⟨⟨false, none, some "SMTP not configured"⟩, false, none⟩) ∧
    (truthy cfg.user = true → truthy cfg.host = true →
      (sendEmail cfg o recip subject text).attempted = true ∧
      (sendEmail cfg o recip subject text).fromUsed = some (fromEmail cfg)) ∧
    (truthy cfg.smtpFrom = true → fromEmail cfg = cfg.smtpFrom.getD "") ∧
    (truthy cfg.smtpFrom = false → includesAt (cfg.user.getD "") = true →
      fromEmail cfg = cfg.user.getD "") ∧
    (truthy cfg.smtpFrom = false → includesAt (cfg.user.getD "") = false →
      fromEmail cfg = defaultFrom) := by
  refine ⟨?_, ?_, ?_, ?_, ?_⟩
  · intro h
    have hb : (truthy cfg.user && truthy cfg.host) = false := by
      rw [Bool.eq_false_iff]
      intro hc
      exact h (by simpa [Bool.and_eq_true] using hc)
    simp [sendEmail, hb]
  · intro hu hh
    cases o <;> simp [sendEmail, hu, hh]
  · intro hf
    simp [fromEmail, hf]
  · intro hf hu
    simp [fromEmail, hf, hu]
  · intro hf hu
    simp [fromEmail, hf, hu]

/-- A configured SMTP environment whose user is an API key (no `@`). -/
def c8Cfg : SmtpConfig := ⟨some "smtp.example.com", some "apikey123", none⟩

/-- Witness for C8 at an unconfigured and at a configured environment. -/
theorem c8_sendEmail_config_witness :
    (sendEmail wCfg (.delivered "m") "a@x.com" "s" "t" =
      ⟨⟨false, none, some "SMTP not configured"⟩, false, none⟩) ∧
    ((sendEmail c8Cfg (.delivered "m") "a@x.com" "s" "t").attempted = true ∧
     (sendEmail c8Cfg (.delivered "m") "a@x.com" "s" "t").fromUsed
       = some (fromEmail c8Cfg)) ∧
    fromEmail c8Cfg = defaultFrom := by
  refine ⟨?_, ?_, ?_⟩
  · exact (c8_sendEmail_config wCfg (.delivered "m") "a@x.com" "s" "t").1
      (by decide)
  · exact (c8_sendEmail_config c8Cfg (.delivered "m") "a@x.com" "s" "t").2.1
      (by decide) (by decide)
  · exact (c8_sendEmail_config c8Cfg (.delivered "m") "a@x.com" "s" "t").2.2.2.2
      (by decide) (by decide)

theorem migrate_noop (t : MigStore) (h1 : "creator_email" ∈ t.eventCols)
    (h2 : "email" ∈ t.rsvpCols) : migrate t = ⟨t, false, false⟩ := by
  simp [migrate, h1, h2]

theorem migrate_adds_columns (s : MigStore) :
    "creator_email" ∈ (migrate s).store.eventCols ∧
    "email" ∈ (migrate s).store.rsvpCols := by
  constructor <;>
  · by_cases hc : "creator_email" ∈ s.eventCols <;>
    by_cases hr : "email" ∈ s.rsvpCols <;>
    simp [migrate, addColumn, hc, hr]

/-- C9: the startup migration step is idempotent: on a store that already has
`events.creator_email` and `rsvps.email` it is a no-op (same schema, same
data, neither ALTER runs); running it twice from any store equals running it
once; and it introduces no duplicate columns. -/
theorem c9_migration_idempotent (s : MigStore) :
    ("creator_email" ∈ s.eventCols → "email" ∈ s.rsvpCols →
      migrate s = ⟨s, false, false⟩) ∧
    migrate (migrate s).store = ⟨(migrate s).store, false, false⟩ ∧
    (s.eventCols.Nodup → s.rsvpCols.Nodup →
      (migrate s).store.eventCols.Nodup ∧ (migrate s).store.rsvpCols.Nodup) := by
  refine ⟨migrate_noop s, ?_, ?_⟩
  · exact migrate_noop (migrate s).store (migrate_adds_columns s).1
      (migrate_adds_columns s).2
  · intro hn1 hn2
    by_cases hc : "creator_email" ∈ s.eventCols <;>
    by_cases hr : "email" ∈ s.rsvpCols <;>
    simp [migrate, addColumn, hc, hr, List.nodup_append, hn1, hn2]

/-- A store that already carries both migration-added columns. -/
def c9Done : MigStore :=
  ⟨["id", "title", "creator_email"], ["id", "email"],
   [["id", "1"].zip ["id", "1"]], []⟩

/-- A fresh pre-migration store: neither added column exists yet. -/
def c9Fresh : MigStore := ⟨["id", "title"], ["id"], [], []⟩

/-- Witness for C9 at concrete stores: the already-migrated store is left
untouched, a second run after migrating a fresh store is a no-op, and no
duplicate columns appear. -/
theorem c9_migration_idempotent_witness :
    migrate c9Done = ⟨c9Done, false, false⟩ ∧
    migrate (migrate c9Fresh).store = ⟨(migrate c9Fresh).store, false, false⟩ ∧
    ((migrate c9Fresh).store.eventCols.Nodup ∧
      (migrate c9Fresh).store.rsvpCols.Nodup) := by
  refine ⟨?_, ?_, ?_⟩
  · exact (c9_migration_idempotent c9Done).1 (by decide) (by decide)
  · exact (c9_migration_idempotent c9Fresh).2.1
  · exact (c9_migration_idempotent c9Fresh).2.2 (by decide) (by decide)

/-- C10: RSVPing a nonexistent event id with a fresh non-empty email still
succeeds: the row is inserted despite the dangling `event_id` (no foreign-key
enforcement), the parent-event lookup finds nothing so no notification is
attempted, and the response carries the RSVP count for that id, which
includes the new row. -/
theorem c10_rsvp_orphan_event (db : DB) (eventId : Nat) (email : String)
    (ip : Option String) (cfg : SmtpConfig) (o1 o2 : SmtpOutcome)
    (hemail : email ≠ "")
    (hnoev : ∀ e ∈ db.events, e.id ≠ eventId)
    (hnodup : ∀ r ∈ db.rsvps, ¬(r.event_id = eventId ∧ r.email = email)) :
    (rsvpCreate db eventId (some email) ip cfg o1 o2).db =
      insertRsvp db eventId email ip ∧
    (rsvpCreate db eventId (some email) ip cfg o1 o2).resp =
      .ok (rsvpCount (insertRsvp db eventId email ip) eventId) ∧
    (rsvpCreate db eventId (some email) ip cfg o1 o2).emails = [] ∧
    rsvpCount (insertRsvp db eventId email ip) eventId
      = rsvpCount db eventId + 1 := by
  have h1 : truthy (some email) = true := by simp [truthy, hemail]
  have h2 : (db.rsvps.find?
      (fun r => r.event_id == eventId && r.email == (some email).getD "")).isSome
        = false := by
    rw [Bool.eq_false_iff]
    intro hc
    rw [List.find?_isSome] at hc
    obtain ⟨r, hmem, hfr⟩ := hc
    simp only [Bool.and_eq_true, beq_iff_eq] at hfr
    exact hnodup r hmem ⟨hfr.1, hfr.2⟩
  have hfe : findEvent db eventId = none := by
    rw [findEvent, List.find?_eq_none]
    intro e hmem
    simpa using hnoev e hmem
  obtain ⟨hdb, hresp, hem⟩ := @rsvpCreate_insert db eventId (some email) ip cfg o1 o2 h1 h2
  refine ⟨hdb, by simpa using hresp, hem hfe, ?_⟩
  simp only [rsvpCount, insertRsvp, List.filter_append, List.length_append]
  simp [mkRsvpRow]

/-- Witness for C10: RSVP to event 99 on the one-event store `wDb1`. -/
theorem c10_rsvp_orphan_event_witness :
    (rsvpCreate wDb1 99 (some "b@x.com") none wCfg (.failed "x") (.failed "x")).db
      = insertRsvp wDb1 99 "b@x.com" none ∧
    (rsvpCreate wDb1 99 (some "b@x.com") none wCfg (.failed "x") (.failed "x")).resp
      = .ok (rsvpCount (insertRsvp wDb1 99 "b@x.com" none) 99) ∧
    (rsvpCreate wDb1 99 (some "b@x.com") none wCfg (.failed "x") (.failed "x")).emails
      = [] ∧
    rsvpCount (insertRsvp wDb1 99 "b@x.com" none) 99 = rsvpCount wDb1 99 + 1 :=
  c10_rsvp_orphan_event wDb1 99 "b@x.com" none wCfg (.failed "x") (.failed "x")
    (by decide) (by decide) (by decide)

end RPDHub
